import Mathlib

/-!
Shallow embedding of
`custom_components/dual_smart_thermostat/hvac_device/custom_position_valve_with_fan_device.py`
(class `CustomPositionValveWithFanDevice`).

Modelling choices:
* Python numbers (`hvac_power_percent`, temperatures) are embedded as `ℚ`;
  valve positions, which the source converts with `int(...)` and compares with
  the integer constants, are `ℤ`.  Python's `int()` on a float/number truncates
  toward zero; it is embedded as `ratTrunc`.
* The external power manager (`self.hvac_power`) stores one number,
  `hvac_power_percent`; its side-effecting refresh `update_hvac_power(...)` is
  embedded as an abstract function `upd : DeviceState → ℚ` giving the value the
  refresh would store.  State is threaded explicitly.
* `hass.services.async_call` is embedded as an abstract
  `transport : Command → Except String Unit`; `Except.error` is a raised
  exception.  A `CallResult` records the commands actually issued to the
  transport (in order) together with whether an exception escapes to the
  caller, so the `try/except` blocks of the source are explicit.
-/

inductive HVACMode where
  | off
  | heat
  | cool
deriving DecidableEq, Repr

/-- A service call issued to the actuator transport:
`valve.set_valve_position`, `fan.turn_off` or `fan.set_percentage`. -/
inductive Command where
  | setValvePosition (entity : String) (position : ℤ)
  | fanTurnOff (entity : String)
  | fanSetPercentage (entity : String) (percentage : ℚ)
deriving DecidableEq, Repr

/-- The state read and written by `CustomPositionValveWithFanDevice`:
the HVAC mode, the environment temperatures (`environment.cur_temp` and the
selected target attribute, both nullable), the power manager's stored demand
percent, and the two actuator entity ids (nullable). -/
structure DeviceState where
  hvac_mode : HVACMode
  cur_temp : Option ℚ
  target_temp : Option ℚ
  hvac_power_percent : ℚ
  valve_entity_id : Option String
  fan_entity_id : Option String
deriving DecidableEq, Repr

/-- Python `int(q)`: truncation toward zero. -/
def ratTrunc (q : ℚ) : ℤ :=
  if 0 ≤ q then ⌊q⌋ else ⌈q⌉

def OFF_POSITION : ℤ := 55

def COOLING_MIN_POSITION : ℤ := 50

def COOLING_MAX_POSITION : ℤ := 20

def HEATING_MIN_POSITION : ℤ := 60

def HEATING_MAX_POSITION : ℤ := 100

/-- `_calculate_valve_position` (source lines 117-152), returning the computed
position together with the state after the `update_hvac_power` side effect.
If the mode is OFF, or a temperature is unavailable, the method returns
`OFF_POSITION` before `update_hvac_power` runs (state unchanged). -/
def _calculate_valve_position (upd : DeviceState → ℚ) (s : DeviceState) :
    ℤ × DeviceState :=
  if s.hvac_mode = HVACMode.off then
    (OFF_POSITION, s)
  else
    match s.cur_temp, s.target_temp with
    | some _, some _ =>
      let s' : DeviceState := { s with hvac_power_percent := upd s }
      let normalized_diff : ℚ := s'.hvac_power_percent / 100
      if s.hvac_mode = HVACMode.cool then
        let position_range : ℚ :=
          (COOLING_MIN_POSITION : ℚ) - (COOLING_MAX_POSITION : ℚ)
        let position : ℚ :=
          (COOLING_MIN_POSITION : ℚ) - normalized_diff * position_range
        (max COOLING_MAX_POSITION (min (ratTrunc position) COOLING_MIN_POSITION), s')
      else if s.hvac_mode = HVACMode.heat then
        let position_range : ℚ :=
          (HEATING_MAX_POSITION : ℚ) - (HEATING_MIN_POSITION : ℚ)
        let position : ℚ :=
          (HEATING_MIN_POSITION : ℚ) + normalized_diff * position_range
        (max HEATING_MIN_POSITION (min (ratTrunc position) HEATING_MAX_POSITION), s')
      else
        (OFF_POSITION, s')
    | _, _ => (OFF_POSITION, s)

/-- `_calculate_fan_speed` (source lines 154-161): 0 when OFF, otherwise the
power manager's current percent, unchanged. -/
def _calculate_fan_speed (s : DeviceState) : ℚ :=
  if s.hvac_mode = HVACMode.off then 0 else s.hvac_power_percent

/-- Outcome of one of the `_async_set_*` methods: the commands issued to the
transport, and whether an exception propagates to the caller. -/
structure CallResult where
  trace : List Command
  result : Except String Unit
deriving Repr

/-- `_async_set_valve_position` (source lines 203-231): when the valve id is
present, issue one `set_valve_position` call inside `try/except Exception`;
a transport error is logged and swallowed. -/
def _async_set_valve_position (transport : Command → Except String Unit)
    (valve_entity_id : Option String) (position : ℤ) : CallResult :=
  match valve_entity_id with
  | none => ⟨[], Except.ok ()⟩
  | some e =>
    let cmd := Command.setValvePosition e position
    match transport cmd with
    | Except.ok _ => ⟨[cmd], Except.ok ()⟩
    | Except.error _ => ⟨[cmd], Except.ok ()⟩

/-- `_async_set_fan_speed` (source lines 233-272): when the fan id is present,
issue `fan.turn_off` if the speed is 0 and `fan.set_percentage` otherwise,
inside `try/except Exception`; a transport error is logged and swallowed. -/
def _async_set_fan_speed (transport : Command → Except String Unit)
    (fan_entity_id : Option String) (speed_percent : ℚ) : CallResult :=
  match fan_entity_id with
  | none => ⟨[], Except.ok ()⟩
  | some e =>
    let cmd :=
      if speed_percent = 0 then Command.fanTurnOff e
      else Command.fanSetPercentage e speed_percent
    match transport cmd with
    | Except.ok _ => ⟨[cmd], Except.ok ()⟩
    | Except.error _ => ⟨[cmd], Except.ok ()⟩

/-- `async_turn_on` (source lines 163-182): abort (no commands) when either
entity id is `None`; otherwise compute the valve position (refreshing the
power percent on the way), set the valve, then compute the fan speed from the
refreshed state and set the fan.  Returns the issued commands and the final
device state. -/
def async_turn_on (upd : DeviceState → ℚ)
    (transport : Command → Except String Unit) (s : DeviceState) :
    List Command × DeviceState :=
  if s.valve_entity_id = none ∨ s.fan_entity_id = none then
    ([], s)
  else
    let vp := _calculate_valve_position upd s
    let s' := vp.2
    let valve_call := _async_set_valve_position transport s'.valve_entity_id vp.1
    let fan_speed := _calculate_fan_speed s'
    let fan_call := _async_set_fan_speed transport s'.fan_entity_id fan_speed
    (valve_call.trace ++ fan_call.trace, s')

/-- `async_turn_off` (source lines 184-201): drive the valve to
`OFF_POSITION` when the valve id is present, drive the fan to speed 0 when the
fan id is present, then notify the power manager of the OFF action (embedded
as `updOff`). -/
def async_turn_off (updOff : DeviceState → ℚ)
    (transport : Command → Except String Unit) (s : DeviceState) :
    List Command × DeviceState :=
  let valve_trace :=
    if s.valve_entity_id.isSome then
      (_async_set_valve_position transport s.valve_entity_id OFF_POSITION).trace
    else []
  let fan_trace :=
    if s.fan_entity_id.isSome then
      (_async_set_fan_speed transport s.fan_entity_id 0).trace
    else []
  (valve_trace ++ fan_trace, { s with hvac_power_percent := updOff s })

/-- Observable state of a fan actuator. -/
inductive FanActState where
  | unknown
  | off
  | percentage (p : ℚ)
deriving DecidableEq, Repr

/-- Observable state of the external actuators: the last commanded valve
position per valve entity, and the last commanded fan state per fan entity. -/
@[ext]
structure ActuatorState where
  valve : String → Option ℤ
  fan : String → FanActState

/-- Effect of one successfully delivered command on the actuators. -/
def applyCommand (a : ActuatorState) : Command → ActuatorState
  | Command.setValvePosition e p =>
    ⟨fun x => if x = e then some p else a.valve x, a.fan⟩
  | Command.fanTurnOff e =>
    ⟨a.valve, fun x => if x = e then FanActState.off else a.fan x⟩
  | Command.fanSetPercentage e p =>
    ⟨a.valve, fun x => if x = e then FanActState.percentage p else a.fan x⟩

/-- Effect of a command sequence on the actuators. -/
def applyTrace (a : ActuatorState) (t : List Command) : ActuatorState :=
  t.foldl applyCommand a

theorem ratTrunc_mono {q r : ℚ} (h : q ≤ r) : ratTrunc q ≤ ratTrunc r := by
  unfold ratTrunc
  by_cases hq : 0 ≤ q <;> by_cases hr : 0 ≤ r <;> simp only [hq, hr, if_pos, if_neg, if_true, if_false]
  · exact Int.floor_mono h
  · exact absurd (hq.trans h) hr
  · have h1 : ⌈q⌉ ≤ 0 := Int.ceil_le.mpr (by exact_mod_cast le_of_not_le hq)
    have h2 : (0 : ℤ) ≤ ⌊r⌋ := Int.floor_nonneg.mpr hr
    omega
  · exact Int.ceil_mono h

theorem ratTrunc_intCast (n : ℤ) : ratTrunc (n : ℚ) = n := by
  unfold ratTrunc
  split
  · exact Int.floor_intCast n
  · exact Int.ceil_intCast n

theorem calculate_valve_position_off (upd : DeviceState → ℚ) (s : DeviceState)
    (h : s.hvac_mode = HVACMode.off) :
    _calculate_valve_position upd s = (55, s) := by
  simp [_calculate_valve_position, h, OFF_POSITION]

theorem calculate_valve_position_missing (upd : DeviceState → ℚ) (s : DeviceState)
    (hm : s.hvac_mode ≠ HVACMode.off)
    (h : s.cur_temp = none ∨ s.target_temp = none) :
    _calculate_valve_position upd s = (55, s) := by
  cases hc : s.cur_temp <;> cases ht : s.target_temp <;>
    simp_all [_calculate_valve_position, OFF_POSITION]

theorem calculate_valve_position_cool (upd : DeviceState → ℚ) (s : DeviceState)
    (hm : s.hvac_mode = HVACMode.cool)
    (hc : s.cur_temp.isSome) (ht : s.target_temp.isSome) :
    _calculate_valve_position upd s
      = (max 20 (min (ratTrunc (50 - upd s / 100 * 30)) 50),
         { s with hvac_power_percent := upd s }) := by
  obtain ⟨c, hc⟩ := Option.isSome_iff_exists.mp hc
  obtain ⟨t, ht⟩ := Option.isSome_iff_exists.mp ht
  simp [_calculate_valve_position, hm, hc, ht,
    COOLING_MIN_POSITION, COOLING_MAX_POSITION]
  norm_num

theorem calculate_valve_position_heat (upd : DeviceState → ℚ) (s : DeviceState)
    (hm : s.hvac_mode = HVACMode.heat)
    (hc : s.cur_temp.isSome) (ht : s.target_temp.isSome) :
    _calculate_valve_position upd s
      = (max 60 (min (ratTrunc (60 + upd s / 100 * 40)) 100),
         { s with hvac_power_percent := upd s }) := by
  obtain ⟨c, hc⟩ := Option.isSome_iff_exists.mp hc
  obtain ⟨t, ht⟩ := Option.isSome_iff_exists.mp ht
  simp [_calculate_valve_position, hm, hc, ht,
    HEATING_MIN_POSITION, HEATING_MAX_POSITION]
  norm_num

/-- C1: in COOL mode with temperatures available, the valve position is the
linear interpolation 50 - (demand/100)*30 truncated toward zero and clamped
into [20,50]; it lies in [20,50] for every demand (also out of range), is
monotonically non-increasing in the demand, and maps demand 0 to 50 and
demand 100 to 20. -/
theorem C1_cool_valve_position (upd : DeviceState → ℚ) (s : DeviceState)
    (hm : s.hvac_mode = HVACMode.cool)
    (hc : s.cur_temp.isSome) (ht : s.target_temp.isSome) :
    (_calculate_valve_position upd s).1
        = max 20 (min (ratTrunc (50 - upd s / 100 * 30)) 50) ∧
    20 ≤ (_calculate_valve_position upd s).1 ∧
    (_calculate_valve_position upd s).1 ≤ 50 ∧
    (upd s = 0 → (_calculate_valve_position upd s).1 = 50) ∧
    (upd s = 100 → (_calculate_valve_position upd s).1 = 20) ∧
    ∀ s2 : DeviceState, s2.hvac_mode = HVACMode.cool → s2.cur_temp.isSome →
      s2.target_temp.isSome → upd s ≤ upd s2 →
      (_calculate_valve_position upd s2).1 ≤ (_calculate_valve_position upd s).1 := by
  rw [calculate_valve_position_cool upd s hm hc ht]
  refine ⟨rfl, le_max_left _ _, max_le (by norm_num) (min_le_right _ _), ?_, ?_, ?_⟩
  · intro hd
    rw [hd]
    have h50 : ratTrunc ((50 : ℚ) - 0 / 100 * 30) = 50 := by
      rw [show ((50 : ℚ) - 0 / 100 * 30) = ((50 : ℤ) : ℚ) by norm_num]
      exact ratTrunc_intCast 50
    rw [h50]
    norm_num
  · intro hd
    rw [hd]
    have h20 : ratTrunc ((50 : ℚ) - 100 / 100 * 30) = 20 := by
      rw [show ((50 : ℚ) - 100 / 100 * 30) = ((20 : ℤ) : ℚ) by norm_num]
      exact ratTrunc_intCast 20
    rw [h20]
    norm_num
  · intro s2 hm2 hc2 ht2 hle
    rw [calculate_valve_position_cool upd s2 hm2 hc2 ht2]
    exact max_le_max le_rfl
      (min_le_min (ratTrunc_mono (by linarith)) le_rfl)

/-- Witness for C1: demand 80 in COOL mode on available temperatures gives
valve position 26 = trunc(50 - 0.8*30), inside [20,50]. -/
theorem C1_cool_valve_position_witness :
    (_calculate_valve_position (fun _ => 80)
        ⟨HVACMode.cool, some 25, some 20, 0, some "valve.v", some "fan.f"⟩).1 = 26 := by
  have h := (C1_cool_valve_position (fun _ => 80)
      ⟨HVACMode.cool, some 25, some 20, 0, some "valve.v", some "fan.f"⟩
      rfl rfl rfl).1
  rw [h, show ((50 : ℚ) - 80 / 100 * 30) = ((26 : ℤ) : ℚ) by norm_num,
    ratTrunc_intCast]
  decide

/-- C2: in HEAT mode with temperatures available, the valve position is the
linear interpolation 60 + (demand/100)*40 truncated toward zero and clamped
into [60,100]; it lies in [60,100] for every demand (also out of range), is
monotonically non-decreasing in the demand, and maps demand 0 to 60 and
demand 100 to 100. -/
theorem C2_heat_valve_position (upd : DeviceState → ℚ) (s : DeviceState)
    (hm : s.hvac_mode = HVACMode.heat)
    (hc : s.cur_temp.isSome) (ht : s.target_temp.isSome) :
    (_calculate_valve_position upd s).1
        = max 60 (min (ratTrunc (60 + upd s / 100 * 40)) 100) ∧
    60 ≤ (_calculate_valve_position upd s).1 ∧
    (_calculate_valve_position upd s).1 ≤ 100 ∧
    (upd s = 0 → (_calculate_valve_position upd s).1 = 60) ∧
    (upd s = 100 → (_calculate_valve_position upd s).1 = 100) ∧
    ∀ s2 : DeviceState, s2.hvac_mode = HVACMode.heat → s2.cur_temp.isSome →
      s2.target_temp.isSome → upd s ≤ upd s2 →
      (_calculate_valve_position upd s).1 ≤ (_calculate_valve_position upd s2).1 := by
  rw [calculate_valve_position_heat upd s hm hc ht]
  refine ⟨rfl, le_max_left _ _, max_le (by norm_num) (min_le_right _ _), ?_, ?_, ?_⟩
  · intro hd
    rw [hd]
    have h60 : ratTrunc ((60 : ℚ) + 0 / 100 * 40) = 60 := by
      rw [show ((60 : ℚ) + 0 / 100 * 40) = ((60 : ℤ) : ℚ) by norm_num]
      exact ratTrunc_intCast 60
    rw [h60]
    norm_num
  · intro hd
    rw [hd]
    have h100 : ratTrunc ((60 : ℚ) + 100 / 100 * 40) = 100 := by
      rw [show ((60 : ℚ) + 100 / 100 * 40) = ((100 : ℤ) : ℚ) by norm_num]
      exact ratTrunc_intCast 100
    rw [h100]
    norm_num
  · intro s2 hm2 hc2 ht2 hle
    rw [calculate_valve_position_heat upd s2 hm2 hc2 ht2]
    exact max_le_max le_rfl
      (min_le_min (ratTrunc_mono (by linarith)) le_rfl)

/-- Witness for C2: demand 50 in HEAT mode on available temperatures gives
valve position 80 = trunc(60 + 0.5*40), inside [60,100]. -/
theorem C2_heat_valve_position_witness :
    (_calculate_valve_position (fun _ => 50)
        ⟨HVACMode.heat, some 18, some 22, 0, some "valve.v", some "fan.f"⟩).1 = 80 := by
  have h := (C2_heat_valve_position (fun _ => 50)
      ⟨HVACMode.heat, some 18, some 22, 0, some "valve.v", some "fan.f"⟩
      rfl rfl rfl).1
  rw [h, show ((60 : ℚ) + 50 / 100 * 40) = ((80 : ℤ) : ℚ) by norm_num,
    ratTrunc_intCast]
  decide

/-- C3: the fan speed equals the demand percent unchanged when the mode is
HEAT or COOL, is exactly 0 when the mode is OFF, and when the demand percent
is an integer in [0,100] (the domain the demand source contracts to supply)
the fan speed is an integer in [0,100]. -/
theorem C3_fan_speed (s : DeviceState) :
    (s.hvac_mode = HVACMode.off → _calculate_fan_speed s = 0) ∧
    (s.hvac_mode ≠ HVACMode.off → _calculate_fan_speed s = s.hvac_power_percent) ∧
    (∀ n : ℤ, s.hvac_power_percent = (n : ℚ) → 0 ≤ n → n ≤ 100 →
      ∃ m : ℤ, _calculate_fan_speed s = (m : ℚ) ∧ 0 ≤ m ∧ m ≤ 100) := by
  refine ⟨fun h => by simp [_calculate_fan_speed, h],
    fun h => by simp [_calculate_fan_speed, h], ?_⟩
  intro n hn h0 h100
  by_cases h : s.hvac_mode = HVACMode.off
  · exact ⟨0, by simp [_calculate_fan_speed, h], le_refl 0, by norm_num⟩
  · exact ⟨n, by simp [_calculate_fan_speed, h, hn], h0, h100⟩

/-- Witness for C3: demand 80 in HEAT mode gives fan speed 80, an integer in
[0,100]. -/
theorem C3_fan_speed_witness :
    _calculate_fan_speed
        ⟨HVACMode.heat, some 18, some 22, 80, some "valve.v", some "fan.f"⟩ = 80 ∧
    ∃ m : ℤ, _calculate_fan_speed
        ⟨HVACMode.heat, some 18, some 22, 80, some "valve.v", some "fan.f"⟩
          = (m : ℚ) ∧ 0 ≤ m ∧ m ≤ 100 := by
  refine ⟨(C3_fan_speed _).2.1 (by simp), ?_⟩
  exact (C3_fan_speed _).2.2 80 (by norm_num) (by norm_num) (by norm_num)

/-- C4: in OFF mode the valve position is exactly 55 for any demand refresh
function and any temperatures (also missing ones), with no demand refresh
performed (the state is returned unchanged). -/
theorem C4_off_valve_position (upd : DeviceState → ℚ) (s : DeviceState)
    (h : s.hvac_mode = HVACMode.off) :
    _calculate_valve_position upd s = (55, s) :=
  calculate_valve_position_off upd s h

/-- Witness for C4: OFF mode with missing current temperature, an
out-of-range stored demand and a demand refresh that would give 999 still
yields position 55 and an unchanged state. -/
theorem C4_off_valve_position_witness :
    _calculate_valve_position (fun _ => 999)
        ⟨HVACMode.off, none, some 20, -5, some "valve.v", some "fan.f"⟩
      = (55, ⟨HVACMode.off, none, some 20, -5, some "valve.v", some "fan.f"⟩) :=
  C4_off_valve_position (fun _ => 999)
    ⟨HVACMode.off, none, some 20, -5, some "valve.v", some "fan.f"⟩ rfl

/-- C5: in HEAT or COOL mode with the current or target temperature
unavailable, the valve position computation skips the demand interpolation
(and the demand refresh: the state is unchanged) and returns the OFF position
55; the embedded computation is total, so no exception escapes. -/
theorem C5_missing_temperature_fallback (upd : DeviceState → ℚ)
    (s : DeviceState) (hm : s.hvac_mode ≠ HVACMode.off)
    (h : s.cur_temp = none ∨ s.target_temp = none) :
    _calculate_valve_position upd s = (55, s) :=
  calculate_valve_position_missing upd s hm h

/-- Witness for C5: HEAT mode with a missing current temperature returns
position 55 and leaves the state unchanged. -/
theorem C5_missing_temperature_fallback_witness :
    _calculate_valve_position (fun _ => 42)
        ⟨HVACMode.heat, none, some 22, 70, some "valve.v", some "fan.f"⟩
      = (55, ⟨HVACMode.heat, none, some 22, 70, some "valve.v", some "fan.f"⟩) :=
  C5_missing_temperature_fallback (fun _ => 42)
    ⟨HVACMode.heat, none, some 22, 70, some "valve.v", some "fan.f"⟩
    (by simp) (Or.inl rfl)

theorem set_valve_position_result (transport : Command → Except String Unit)
    (vid : Option String) (p : ℤ) :
    (_async_set_valve_position transport vid p).result = Except.ok () := by
  cases vid with
  | none => rfl
  | some v =>
    cases h : transport (Command.setValvePosition v p) <;>
      simp [_async_set_valve_position, h]

theorem set_fan_speed_result (transport : Command → Except String Unit)
    (fid : Option String) (sp : ℚ) :
    (_async_set_fan_speed transport fid sp).result = Except.ok () := by
  cases fid with
  | none => rfl
  | some f =>
    cases h : transport
        (if sp = 0 then Command.fanTurnOff f else Command.fanSetPercentage f sp) <;>
      simp [_async_set_fan_speed, h]

theorem set_valve_position_trace (transport : Command → Except String Unit)
    (v : String) (p : ℤ) :
    (_async_set_valve_position transport (some v) p).trace
      = [Command.setValvePosition v p] := by
  cases h : transport (Command.setValvePosition v p) <;>
    simp [_async_set_valve_position, h]

theorem set_fan_speed_trace (transport : Command → Except String Unit)
    (f : String) (sp : ℚ) :
    (_async_set_fan_speed transport (some f) sp).trace
      = [if sp = 0 then Command.fanTurnOff f else Command.fanSetPercentage f sp] := by
  cases h : transport
      (if sp = 0 then Command.fanTurnOff f else Command.fanSetPercentage f sp) <;>
    simp [_async_set_fan_speed, h]

/-- C6: for every transport outcome (including a raised exception), the set
valve position and set fan speed operations return normally (no exception
escapes) and issue at most one command (no retry). -/
theorem C6_transport_failure_contained (transport : Command → Except String Unit)
    (vid fid : Option String) (position : ℤ) (speed_percent : ℚ) :
    (_async_set_valve_position transport vid position).result = Except.ok () ∧
    (_async_set_fan_speed transport fid speed_percent).result = Except.ok () ∧
    (_async_set_valve_position transport vid position).trace.length ≤ 1 ∧
    (_async_set_fan_speed transport fid speed_percent).trace.length ≤ 1 := by
  refine ⟨set_valve_position_result transport vid position,
    set_fan_speed_result transport fid speed_percent, ?_, ?_⟩
  · cases vid with
    | none => simp [_async_set_valve_position]
    | some v => rw [set_valve_position_trace]; simp
  · cases fid with
    | none => simp [_async_set_fan_speed]
    | some f => rw [set_fan_speed_trace]; simp

/-- C7: when the valve identity or the fan identity is absent, turn on logs
and returns with no actuator command issued (empty trace) and the state
unchanged, even when the other identity is present. -/
theorem C7_turn_on_missing_identity (upd : DeviceState → ℚ)
    (transport : Command → Except String Unit) (s : DeviceState)
    (h : s.valve_entity_id = none ∨ s.fan_entity_id = none) :
    async_turn_on upd transport s = ([], s) := by
  unfold async_turn_on
  rw [if_pos h]

/-- Witness for C7: a missing valve identity with a present fan identity
aborts turn on with no commands. -/
theorem C7_turn_on_missing_identity_witness :
    async_turn_on (fun _ => 80) (fun _ => Except.ok ())
        ⟨HVACMode.cool, some 25, some 20, 10, none, some "fan.f"⟩
      = ([], ⟨HVACMode.cool, some 25, some 20, 10, none, some "fan.f"⟩) :=
  C7_turn_on_missing_identity (fun _ => 80) (fun _ => Except.ok ())
    ⟨HVACMode.cool, some 25, some 20, 10, none, some "fan.f"⟩ (Or.inl rfl)

theorem applyCommand_idem (a : ActuatorState) (c : Command) :
    applyCommand (applyCommand a c) c = applyCommand a c := by
  cases c with
  | setValvePosition e p =>
    refine ActuatorState.ext ?_ rfl
    funext x
    by_cases hx : x = e <;> simp [applyCommand, hx]
  | fanTurnOff e =>
    refine ActuatorState.ext rfl ?_
    funext x
    by_cases hx : x = e <;> simp [applyCommand, hx]
  | fanSetPercentage e p =>
    refine ActuatorState.ext rfl ?_
    funext x
    by_cases hx : x = e <;> simp [applyCommand, hx]

theorem applyCommand_valve_fanOff_comm (a : ActuatorState) (v f : String)
    (p : ℤ) :
    applyCommand (applyCommand a (Command.setValvePosition v p))
        (Command.fanTurnOff f)
      = applyCommand (applyCommand a (Command.fanTurnOff f))
          (Command.setValvePosition v p) := rfl

theorem turn_off_trace (updOff : DeviceState → ℚ)
    (transport : Command → Except String Unit) (s : DeviceState) :
    (async_turn_off updOff transport s).1
      = (match s.valve_entity_id with
         | some v => [Command.setValvePosition v OFF_POSITION]
         | none => []) ++
        (match s.fan_entity_id with
         | some f => [Command.fanTurnOff f]
         | none => []) := by
  cases hv : s.valve_entity_id <;> cases hf : s.fan_entity_id <;>
    simp [async_turn_off, hv, hf, set_valve_position_trace, set_fan_speed_trace]

theorem turn_off_state (updOff : DeviceState → ℚ)
    (transport : Command → Except String Unit) (s : DeviceState) :
    (async_turn_off updOff transport s).2
      = { s with hvac_power_percent := updOff s } := rfl

/-- C8: turn off is idempotent and its sub-actions are independent: a second
invocation issues the same commands as the first (for arbitrary, possibly
failing, transports on each invocation), applying the commands twice leaves
the actuators as after one application, the valve is commanded to 55 whenever
the valve identity is present and the fan is commanded off whenever the fan
identity is present (each regardless of the other and of transport failures),
and neither sub-operation lets an exception escape. -/
theorem C8_turn_off_idempotent (updOff : DeviceState → ℚ)
    (transport transport2 : Command → Except String Unit)
    (s : DeviceState) (a : ActuatorState) :
    (async_turn_off updOff transport2 (async_turn_off updOff transport s).2).1
      = (async_turn_off updOff transport s).1 ∧
    applyTrace (applyTrace a (async_turn_off updOff transport s).1)
        (async_turn_off updOff transport2 (async_turn_off updOff transport s).2).1
      = applyTrace a (async_turn_off updOff transport s).1 ∧
    (∀ v, s.valve_entity_id = some v →
      Command.setValvePosition v 55 ∈ (async_turn_off updOff transport s).1) ∧
    (∀ f, s.fan_entity_id = some f →
      Command.fanTurnOff f ∈ (async_turn_off updOff transport s).1) ∧
    (_async_set_valve_position transport s.valve_entity_id OFF_POSITION).result
      = Except.ok () ∧
    (_async_set_fan_speed transport s.fan_entity_id 0).result = Except.ok () := by
  have htr : (async_turn_off updOff transport2 (async_turn_off updOff transport s).2).1
      = (async_turn_off updOff transport s).1 := by
    rw [turn_off_trace, turn_off_trace, turn_off_state]
  refine ⟨htr, ?_, ?_, ?_,
    set_valve_position_result transport s.valve_entity_id OFF_POSITION,
    set_fan_speed_result transport s.fan_entity_id 0⟩
  · rw [htr, turn_off_trace]
    cases hv : s.valve_entity_id <;> cases hf : s.fan_entity_id <;>
      simp [applyTrace, applyCommand_idem, applyCommand_valve_fanOff_comm]
  · intro v hv
    rw [turn_off_trace, hv]
    exact List.mem_append.mpr (Or.inl (by simp [OFF_POSITION]))
  · intro f hf
    rw [turn_off_trace, hf]
    exact List.mem_append.mpr (Or.inr (by simp))

/-- Witness for C8: with both identities present and a transport that always
fails, one turn off issues the valve=55 and fan-off commands, and a second
turn off issues the same commands again. -/
theorem C8_turn_off_idempotent_witness :
    Command.setValvePosition "valve.v" 55
        ∈ (async_turn_off (fun _ => 0) (fun _ => Except.error "boom")
            ⟨HVACMode.heat, some 18, some 22, 70, some "valve.v", some "fan.f"⟩).1 ∧
    Command.fanTurnOff "fan.f"
        ∈ (async_turn_off (fun _ => 0) (fun _ => Except.error "boom")
            ⟨HVACMode.heat, some 18, some 22, 70, some "valve.v", some "fan.f"⟩).1 ∧
    (async_turn_off (fun _ => 0) (fun _ => Except.error "boom")
        (async_turn_off (fun _ => 0) (fun _ => Except.error "boom")
          ⟨HVACMode.heat, some 18, some 22, 70, some "valve.v", some "fan.f"⟩).2).1
      = (async_turn_off (fun _ => 0) (fun _ => Except.error "boom")
          ⟨HVACMode.heat, some 18, some 22, 70, some "valve.v", some "fan.f"⟩).1 := by
  have h := C8_turn_off_idempotent (fun _ => 0) (fun _ => Except.error "boom")
      (fun _ => Except.error "boom")
      ⟨HVACMode.heat, some 18, some 22, 70, some "valve.v", some "fan.f"⟩
      ⟨fun _ => none, fun _ => FanActState.unknown⟩
  exact ⟨h.2.2.1 "valve.v" rfl, h.2.2.2.1 "fan.f" rfl, h.1⟩

/-- C9: with the fan identity present, a fan speed of exactly 0 issues a
power-off command to the fan (not a set-percentage 0), any nonzero speed
issues a set-percentage command with that value, and at demand 0 with mode
HEAT or COOL the computed fan speed is 0, so the power-off path is taken. -/
theorem C9_fan_zero_power_off (transport : Command → Except String Unit)
    (f : String) (speed_percent : ℚ) (s : DeviceState) :
    (speed_percent = 0 →
      (_async_set_fan_speed transport (some f) speed_percent).trace
        = [Command.fanTurnOff f]) ∧
    (speed_percent ≠ 0 →
      (_async_set_fan_speed transport (some f) speed_percent).trace
        = [Command.fanSetPercentage f speed_percent]) ∧
    (s.hvac_mode ≠ HVACMode.off → s.hvac_power_percent = 0 →
      (_async_set_fan_speed transport (some f) (_calculate_fan_speed s)).trace
        = [Command.fanTurnOff f]) := by
  refine ⟨?_, ?_, ?_⟩
  · intro h
    rw [set_fan_speed_trace]
    simp [h]
  · intro h
    rw [set_fan_speed_trace]
    simp [h]
  · intro hm hp
    rw [set_fan_speed_trace]
    simp [_calculate_fan_speed, hm, hp]

/-- Witness for C9: speed 0 and the demand-0 HEAT state both take the fan
power-off path, and speed 70 takes the set-percentage path. -/
theorem C9_fan_zero_power_off_witness :
    (_async_set_fan_speed (fun _ => Except.ok ()) (some "fan.f") 0).trace
      = [Command.fanTurnOff "fan.f"] ∧
    (_async_set_fan_speed (fun _ => Except.ok ()) (some "fan.f") 70).trace
      = [Command.fanSetPercentage "fan.f" 70] ∧
    (_async_set_fan_speed (fun _ => Except.ok ()) (some "fan.f")
        (_calculate_fan_speed
          ⟨HVACMode.heat, some 18, some 22, 0, some "valve.v", some "fan.f"⟩)).trace
      = [Command.fanTurnOff "fan.f"] := by
  have h := C9_fan_zero_power_off (fun _ => Except.ok ()) "fan.f" 0
      ⟨HVACMode.heat, some 18, some 22, 0, some "valve.v", some "fan.f"⟩
  have h70 := C9_fan_zero_power_off (fun _ => Except.ok ()) "fan.f" 70
      ⟨HVACMode.heat, some 18, some 22, 0, some "valve.v", some "fan.f"⟩
  exact ⟨h.1 rfl, h70.2.1 (by norm_num), h.2.2 (by simp) rfl⟩

/-- C10: in HEAT or COOL mode with both identities present but a missing
current or target temperature, turn on skips the demand refresh (the returned
state is unchanged), commands the valve to the OFF position 55, and commands
the fan from the pre-existing stale demand percent (power-off at 0, otherwise
set-percentage with the stale value). -/
theorem C10_turn_on_stale_fan (upd : DeviceState → ℚ)
    (transport : Command → Except String Unit) (s : DeviceState)
    (v f : String) (hm : s.hvac_mode ≠ HVACMode.off)
    (hv : s.valve_entity_id = some v) (hf : s.fan_entity_id = some f)
    (ht : s.cur_temp = none ∨ s.target_temp = none) :
    async_turn_on upd transport s
      = (Command.setValvePosition v 55
          :: (if s.hvac_power_percent = 0 then [Command.fanTurnOff f]
              else [Command.fanSetPercentage f s.hvac_power_percent]), s) := by
  have hguard : ¬ (s.valve_entity_id = none ∨ s.fan_entity_id = none) := by
    simp [hv, hf]
  unfold async_turn_on
  rw [if_neg hguard, calculate_valve_position_missing upd s hm ht]
  show ((_async_set_valve_position transport s.valve_entity_id 55).trace
      ++ (_async_set_fan_speed transport s.fan_entity_id
            (_calculate_fan_speed s)).trace, s) = _
  rw [hv, hf, set_valve_position_trace, set_fan_speed_trace,
    show _calculate_fan_speed s = s.hvac_power_percent by
      simp [_calculate_fan_speed, hm]]
  split <;> simp

/-- Witness for C10: HEAT mode, missing current temperature, stale demand 70:
the valve is commanded to 55 while the fan is commanded to 70 percent, and
the state (hence the stored demand) is unchanged. -/
theorem C10_turn_on_stale_fan_witness :
    async_turn_on (fun _ => 50) (fun _ => Except.ok ())
        ⟨HVACMode.heat, none, some 22, 70, some "valve.v", some "fan.f"⟩
      = ([Command.setValvePosition "valve.v" 55,
          Command.fanSetPercentage "fan.f" 70],
         ⟨HVACMode.heat, none, some 22, 70, some "valve.v", some "fan.f"⟩) := by
  have h := C10_turn_on_stale_fan (fun _ => 50) (fun _ => Except.ok ())
      ⟨HVACMode.heat, none, some 22, 70, some "valve.v", some "fan.f"⟩
      "valve.v" "fan.f" (by simp) rfl rfl (Or.inl rfl)
  rw [h]
  norm_num
